import Mathlib

/-!
Verification development for the resilient multi-provider processing layer of
the AI task-management backend (FastAPI + Groq/HuggingFace + storage cascade).

The Python sources embedded here are:
  backend/services/monitoring.py  (APIMonitor, APIMetric, ServiceHealth, APICallTracker)
  backend/services/ai.py          (AIService: generate_response, process_audio,
                                   process_image, _extract_tasks_from_response)
  backend/services/database.py    (DatabaseService and its in-memory fallback storage)

Conventions of the shallow embedding:
  * wall-clock timestamps are `Nat` seconds and are passed explicitly wherever the
    Python code calls `datetime.now()` / `time.time()`;
  * Python floats (latencies, success rates) are modelled as exact rationals `ℚ`;
  * network / external-library calls are inputs of the model (probe outcomes,
    provider responses), since the code treats them as opaque request/response pairs;
  * Python dicts keyed by strings are association lists with a default value
    (mirroring `collections.defaultdict`), and `collections.deque(maxlen=n)` is a
    list with append-and-drop-oldest behaviour.
-/

namespace IntelliAssist

/-! ## Generic helpers: assoc lists with defaults, bounded deques, Python string ops -/

/-- Lookup in an association list (first binding wins, like a Python dict). -/
def getEntry? {α : Type} (l : List (String × α)) (k : String) : Option α :=
  match l with
  | [] => none
  | (k', v') :: t => if k' = k then some v' else getEntry? t k

/-- Set a binding in an association list, appending if the key is absent. -/
def setEntry {α : Type} (l : List (String × α)) (k : String) (v : α) : List (String × α) :=
  match l with
  | [] => [(k, v)]
  | (k', v') :: t => if k' = k then (k, v) :: t else (k', v') :: setEntry t k v

/-- `collections.deque(maxlen := cap).append x`: append on the right, dropping the
oldest element when the capacity is exceeded. -/
def pushRing {α : Type} (cap : Nat) (l : List α) (x : α) : List α :=
  let l' := l ++ [x]
  if cap < l'.length then l'.drop (l'.length - cap) else l'

/-- Python `str.isspace` characters relevant to `str.strip` / `\s` (ASCII fragment). -/
def isPySpace (c : Char) : Bool :=
  c = ' ' || c = '\t' || c = '\n' || c = '\r' || c = '\x0b' || c = '\x0c'

/-- Python `str.strip()`. -/
def pyStrip (s : String) : String :=
  ⟨((s.data.dropWhile isPySpace).reverse.dropWhile isPySpace).reverse⟩

/-- Python `str.lower()` (ASCII case folding). -/
def lowerStr (s : String) : String := ⟨s.data.map Char.toLower⟩

/-- Substring test on character lists: Python `sub in l`. -/
def containsSubList (l sub : List Char) : Bool :=
  match l with
  | [] => sub.isEmpty
  | _ :: t => sub.isPrefixOf l || containsSubList t sub

/-- Python `sub in s` for strings. -/
def containsSub (s sub : String) : Bool := containsSubList s.data sub.data

/-- Python `len(s.split())`: number of maximal nonempty runs between whitespace. -/
def wordCount (s : String) : Nat :=
  ((s.data.splitOnP isPySpace).filter (fun w => !w.isEmpty)).length

/-- Python `text.split(sep)` for a single separator character (every occurrence
splits; empty pieces are kept). -/
def splitCharAux (sep : Char) : List Char → List Char → List (List Char)
  | [], acc => [acc.reverse]
  | c :: t, acc =>
    if c = sep then acc.reverse :: splitCharAux sep t []
    else splitCharAux sep t (c :: acc)

/-- Python `s.split(sep)` on strings. -/
def splitChar (sep : Char) (s : String) : List String :=
  (splitCharAux sep s.data []).map (fun l => (⟨l⟩ : String))

/-! ## monitoring.py — APIMetric, ServiceStats, rate limits, APIMonitor -/

/-- `APIMetric` dataclass from monitoring.py.  `timestamp` is a `Nat` clock value,
`response_time` an exact rational; sizes are `Int` because the Python code places no
sign restriction on them. -/
structure APIMetric where
  timestamp : Nat
  service : String
  endpoint : String
  method : String
  status_code : Int
  response_time : ℚ
  request_size : Int
  response_size : Int
  error_message : Option String := none
  deriving Repr, DecidableEq

/-- One value of the `service_stats` defaultdict of `APIMonitor.__init__`. -/
structure ServiceStats where
  total_requests : Nat := 0
  total_errors : Nat := 0
  total_response_time : ℚ := 0
  last_success : Option Nat := none
  last_failure : Option Nat := none
  recent_response_times : List ℚ := []
  deriving Repr, DecidableEq

/-- One value of the `rate_limits` dict of `APIMonitor.__init__`. -/
structure RateLimit where
  requests_per_minute : Nat
  current_count : Nat
  reset_time : Nat
  deriving Repr, DecidableEq

/-- The mutable state of `APIMonitor`. -/
structure APIMonitor where
  metrics : List APIMetric
  service_stats : List (String × ServiceStats)
  rate_limits : List (String × RateLimit)
  deriving Repr, DecidableEq

/-- `APIMonitor()` constructed at clock value `t0` (the Python constructor stamps
`datetime.now()` into each `reset_time`). -/
def apiMonitorInit (t0 : Nat) : APIMonitor :=
  { metrics := []
    service_stats := []
    rate_limits :=
      [ ("groq", { requests_per_minute := 30, current_count := 0, reset_time := t0 })
      , ("huggingface", { requests_per_minute := 1000, current_count := 0, reset_time := t0 })
      , ("supabase", { requests_per_minute := 1000, current_count := 0, reset_time := t0 }) ] }

/-- defaultdict read of `service_stats[service]`. -/
def statsOf (m : APIMonitor) (service : String) : ServiceStats :=
  (getEntry? m.service_stats service).getD {}

/-- `APIMonitor._check_rate_limits(service)` at clock `now`.  Resets the window
counter when the reset time has elapsed, then increments; the 80%-of-ceiling
condition only produces a log warning (returned as the `Bool`), never an error. -/
def check_rate_limits (m : APIMonitor) (service : String) (now : Nat) : APIMonitor × Bool :=
  match getEntry? m.rate_limits service with
  | none => (m, false)
  | some rl =>
    let rl :=
      if rl.reset_time ≤ now then
        { rl with current_count := 0, reset_time := now + 60 }
      else rl
    let rl := { rl with current_count := rl.current_count + 1 }
    ( { m with rate_limits := setEntry m.rate_limits service rl }
    , rl.requests_per_minute * 4 ≤ rl.current_count * 5 )

/-- `APIMonitor.record_metric(metric)` at clock `now` (the clock is consumed by the
embedded `_check_rate_limits` call).  Appends to the 10000-entry ring buffer,
updates the per-service aggregates, then updates the rate window.  The function is
total: malformed (e.g. negative) sizes and latencies are processed like any other
value — the Python code performs no validation and no clamping. -/
def record_metric (m : APIMonitor) (metric : APIMetric) (now : Nat) : APIMonitor :=
  let metrics := pushRing 10000 m.metrics metric
  let stats := statsOf m metric.service
  let stats :=
    { stats with
      total_requests := stats.total_requests + 1
      total_response_time := stats.total_response_time + metric.response_time
      recent_response_times := pushRing 100 stats.recent_response_times metric.response_time }
  let stats :=
    if 400 ≤ metric.status_code then
      { stats with total_errors := stats.total_errors + 1, last_failure := some metric.timestamp }
    else
      { stats with last_success := some metric.timestamp }
  let m' :=
    { m with
      metrics := metrics
      service_stats := setEntry m.service_stats metric.service stats }
  (check_rate_limits m' metric.service now).1

/-- `ServiceHealth` dataclass from monitoring.py. -/
structure ServiceHealth where
  service : String
  status : String
  last_success : Nat
  last_failure : Option Nat
  success_rate : ℚ
  avg_response_time : ℚ
  total_requests : Nat
  error_count : Nat
  deriving Repr, DecidableEq

/-- `APIMonitor.get_service_health(service)` at clock `now` (`datetime.now()` is used
for the `last_success` default).  Mirrors the Python status assignment: start at
healthy, overwrite with degraded when `success_rate < 0.95`, overwrite with down
when `success_rate < 0.5 or avg_response_time > 30`. -/
def get_service_health (m : APIMonitor) (service : String) (now : Nat) : ServiceHealth :=
  let stats := statsOf m service
  if stats.total_requests = 0 then
    { service := service, status := "unknown", last_success := now, last_failure := none
      success_rate := 0, avg_response_time := 0, total_requests := 0, error_count := 0 }
  else
    let success_rate : ℚ :=
      ((stats.total_requests : ℚ) - (stats.total_errors : ℚ)) / (stats.total_requests : ℚ)
    let avg_response_time : ℚ := stats.total_response_time / (stats.total_requests : ℚ)
    let status :=
      if success_rate < 1/2 ∨ 30 < avg_response_time then "down"
      else if success_rate < 95/100 then "degraded"
      else "healthy"
    { service := service, status := status
      last_success := (stats.last_success).getD now
      last_failure := stats.last_failure
      success_rate := success_rate, avg_response_time := avg_response_time
      total_requests := stats.total_requests, error_count := stats.total_errors }

/-! ## ai.py — `AIService._extract_tasks_from_response` (TaskExtractionEngine)

The Python function lower-cases the text to look for task-indicator keywords,
splits the text into stripped lines and applies four regular expressions to each
line in order, keeping the first capture of length ≥ 10 (shorter captures fall
through to the next pattern via `continue`; the explicit skip-words `continue`,
`next`, `done` are all shorter than 10 characters, so that test is subsumed).
The regex captures are reproduced here as direct string functions: each pattern
ends in a greedy `(.+)`, so on a stripped line the capture is exactly the line
remainder after the literal/keyword part and the maximal whitespace (or `[:\s]`)
run, and a match exists iff that remainder is nonempty.  (When the remainder is
empty the regex engine can still backtrack to a 1-character capture, which is
below the 10-character minimum and therefore behaves exactly like no match.) -/

/-- One extracted task candidate (the dict built by `_extract_tasks_from_response`). -/
structure TaskRec where
  title : String
  summary : String
  status : String
  priority : String
  category : String
  deriving Repr, DecidableEq

/-- The `task_indicators` keyword list. -/
def taskIndicators : List String :=
  [ "plan", "task", "todo", "step", "action", "schedule", "organize"
  , "deadline", "project", "complete", "finish", "work on", "need to" ]

/-- `has_tasks`: the lower-cased response contains some task indicator. -/
def hasTaskIndicator (responseLower : String) : Bool :=
  taskIndicators.any (fun kw => containsSub responseLower kw)

/-- Case-insensitive "the lower-cased keyword `kw` starts the text". -/
def ciStarts : List Char → List Char → Bool
  | [], _ => true
  | _ :: _, [] => false
  | k :: ks, c :: cs => (c.toLower = k) && ciStarts ks cs

/-- Characters of the regex class `[:\s]`. -/
def colonSpace (c : Char) : Bool := c = ':' || isPySpace c

/-- Capture of `^\d+\.\s*(.+)` on a stripped line: digits, a dot, optional
whitespace, then a nonempty remainder. -/
def captNumbered (l : List Char) : Option (List Char) :=
  let ds := l.takeWhile Char.isDigit
  if ds.isEmpty then none
  else
    match l.drop ds.length with
    | '.' :: rest =>
      let g := rest.dropWhile isPySpace
      if g.isEmpty then none else some g
    | _ => none

/-- Capture of `^[-*•]\s*(.+)` on a stripped line. -/
def captBullet (l : List Char) : Option (List Char) :=
  match l with
  | [] => none
  | c :: rest =>
    if c = '-' || c = '*' || c = '•' then
      let g := rest.dropWhile isPySpace
      if g.isEmpty then none else some g
    else none

/-- The `(?:\s*\d+)?[:\s]+(.+)` tail of the third pattern, applied after the
task/step/action keyword.  The optional number part is tried first (regex `?` is
greedy); when it matches but no `[:\s]+`-plus-remainder follows, the engine falls
back to the keyword-only reading, which is the second branch here.  (Backtracking
inside `\d+` never helps: the character after a shortened digit run is a digit,
which is not in `[:\s]`.) -/
def captLabelTail (t : List Char) : Option (List Char) :=
  let withNum :=
    let t1 := t.dropWhile isPySpace
    let ds := t1.takeWhile Char.isDigit
    if ds.isEmpty then none
    else
      let t2 := t1.drop ds.length
      let run := t2.takeWhile colonSpace
      let rest := t2.drop run.length
      if run.isEmpty || rest.isEmpty then none else some rest
  match withNum with
  | some g => some g
  | none =>
    let run := t.takeWhile colonSpace
    let rest := t.drop run.length
    if run.isEmpty || rest.isEmpty then none else some rest

/-- Capture of `^(?:task|step|action)(?:\s*\d+)?[:\s]+(.+)` (IGNORECASE). -/
def captLabeled (l : List Char) : Option (List Char) :=
  if ciStarts "task".data l then captLabelTail (l.drop 4)
  else if ciStarts "step".data l then captLabelTail (l.drop 4)
  else if ciStarts "action".data l then captLabelTail (l.drop 6)
  else none

/-- The alternatives of the fourth pattern, in regex order. -/
def actionPhrases : List (List Char) :=
  ["you should".data, "need to".data, "plan to".data, "will".data]

/-- Match of `(?:you should|need to|plan to|will)\s+(.+)` anchored at the current
position (the four keywords start with distinct letters, so at most one applies). -/
def captActionAt (l : List Char) : Option (List Char) :=
  match actionPhrases.find? (fun k => ciStarts k l) with
  | none => none
  | some k =>
    let t := l.drop k.length
    let ws := t.takeWhile isPySpace
    let rest := t.drop ws.length
    if ws.isEmpty || rest.isEmpty then none else some rest

/-- `re.search` of the fourth (unanchored) pattern: leftmost matching position. -/
def captAction (l : List Char) : Option (List Char) :=
  match l with
  | [] => none
  | _ :: t =>
    match captActionAt l with
    | some g => some g
    | none => captAction t

/-- Priority classification of `_extract_tasks_from_response` (on the lower-cased
capture). -/
def taskPriority (low : String) : String :=
  if ["urgent", "asap", "critical", "important"].any (fun w => containsSub low w) then "high"
  else if ["later", "eventually", "when possible"].any (fun w => containsSub low w) then "low"
  else "medium"

/-- Category classification of `_extract_tasks_from_response` (on the lower-cased
capture). -/
def taskCategory (low : String) : String :=
  if ["meeting", "call", "email", "contact"].any (fun w => containsSub low w) then "communication"
  else if ["research", "analyze", "study", "learn"].any (fun w => containsSub low w) then "research"
  else if ["create", "build", "develop", "design"].any (fun w => containsSub low w) then "development"
  else if ["plan", "organize", "schedule"].any (fun w => containsSub low w) then "planning"
  else "general"

/-- The task dict built from a capture (`task_text`): title is the first 100
characters, priority and category come from keyword lookup. -/
def mkTaskRec (taskText : String) : TaskRec :=
  let low := lowerStr taskText
  { title := ⟨taskText.data.take 100⟩
    summary := taskText
    status := "pending"
    priority := taskPriority low
    category := taskCategory low }

/-- Process one stripped, nonempty line: the four patterns are tried in order and
the first whose stripped capture reaches 10 characters yields the task (shorter
captures `continue` to the next pattern, exactly as in the Python loop). -/
def lineTask (l : List Char) : Option TaskRec :=
  let fourth :=
    match captAction l with
    | some g =>
      let t := pyStrip ⟨g⟩
      if 10 ≤ t.data.length then some (mkTaskRec t) else none
    | none => none
  let third :=
    match captLabeled l with
    | some g =>
      let t := pyStrip ⟨g⟩
      if 10 ≤ t.data.length then some (mkTaskRec t) else fourth
    | none => fourth
  let second :=
    match captBullet l with
    | some g =>
      let t := pyStrip ⟨g⟩
      if 10 ≤ t.data.length then some (mkTaskRec t) else third
    | none => third
  match captNumbered l with
  | some g =>
    let t := pyStrip ⟨g⟩
    if 10 ≤ t.data.length then some (mkTaskRec t) else second
  | none => second

/-- The generic fallback task: first 200 characters, stripped, with a trailing dot
removed, plus an ellipsis. -/
def fallbackTask (responseText : String) : TaskRec :=
  let s := pyStrip ⟨responseText.data.take 200⟩
  let s : String := if s.data.getLast? = some '.' then ⟨s.data.dropLast⟩ else s
  { title := "Follow AI recommendations"
    summary := s ++ "..."
    status := "pending"
    priority := "medium"
    category := "ai-generated" }

/-- `AIService._extract_tasks_from_response(response_text)`. -/
def extract_tasks_from_response (responseText : String) : List TaskRec :=
  let responseLower := lowerStr responseText
  if !hasTaskIndicator responseLower then []
  else
    let lines := ((splitChar '\n' responseText).map pyStrip).filter (fun l => l ≠ "")
    let tasks := lines.filterMap (fun l => lineTask l.data)
    if tasks.isEmpty && 20 < responseText.data.length then [fallbackTask responseText]
    else tasks

/-! ## ai.py — `AIService.generate_response` (ResponseGenerator)

The Groq chat-completion call is an external request; its outcome is an input of
the model.  `ok text tokens` is a completed call whose first choice has content
`text` (the Python passes that content through verbatim, empty or not); `exn msg`
is any exception raised by the call or by the response processing, which the
function converts into a fixed apology with status `api_error`.  The outer
`except` of the Python function would catch exceptions raised before the inner
`try`, but that region is pure string assembly and cannot raise, so it has no
counterpart here; the function is total either way.  `response_time` fields are
wall-clock and are omitted. -/

inductive GroqOutcome where
  | ok (text : String) (tokens : Nat)
  | exn (msg : String)
  deriving Repr, DecidableEq

/-- The result dict of `generate_response`. -/
structure GenResult where
  response : String
  model : String
  tokens_used : Nat
  status : String
  error : Option String := none
  tasks : List TaskRec := []
  deriving Repr, DecidableEq

/-- `AIService.generate_response(prompt, context)`.  `groqClient` is whether
`self.groq_client` was initialized (an API key was configured); `model` is
`self.groq_model`.  The `context` argument only affects the message list sent to
the provider, never the shape of the result. -/
def generate_response (groqClient : Bool) (model : String) (outcome : GroqOutcome)
    (prompt : String) (_context : Option String) : GenResult :=
  if !groqClient then
    let aiResponse :=
      "[PLACEHOLDER MODE] You said: " ++ prompt ++
      "\n\nI\x27m IntelliAssist.AI, ready to help with your tasks! To enable full AI capabilities, please add your Groq API key to the .env file."
    { response := aiResponse
      model := model
      tokens_used := wordCount prompt + wordCount aiResponse
      status := "placeholder"
      tasks := [] }
  else
    match outcome with
    | .ok text tokens =>
      { response := text
        model := model
        tokens_used := tokens
        status := "success"
        tasks := extract_tasks_from_response text }
    | .exn msg =>
      { response :=
          "I\x27m experiencing some technical difficulties connecting to my AI systems. Please try again in a moment, or check that your API credentials are properly configured."
        model := model
        tokens_used := 0
        status := "api_error"
        error := some msg
        tasks := [] }

/-! ## ai.py — `AIService.process_audio` (MediaProcessingPipeline, audio)

The HuggingFace Whisper request is an external call; its outcome is an input.
`ok200 text conf lang` is a 200 response whose body was parsed by
`_process_audio_response` into the given transcription fields; `http503` is the
model-loading response; `httpOther code` any other status; `timeout` the
`httpx.TimeoutException`; `apiExn` any other exception raised inside the inner
`try` (all of which the Python converts into a placeholder success).  `readOk`
models the file read between the size check and the API call: when it fails the
exception escapes to the outer handler, the only path (besides the missing-file
and size guards) that produces `status = "error"`.  The nested
`generate_response` calls only fill the `ai_response` field and are omitted. -/

inductive AudioOutcome where
  | ok200 (text : String) (conf : ℚ) (lang : String)
  | http503
  | httpOther (code : Nat)
  | timeout
  | apiExn (msg : String)
  deriving Repr, DecidableEq

/-- The transcription dict inside a `process_audio` result. -/
structure Transcription where
  text : String
  confidence : ℚ
  language : String
  deriving Repr, DecidableEq

/-- The result dict of `process_audio` (fields used by the claims). -/
structure AudioResult where
  status : String
  transcription : Option Transcription := none
  model_used : String := ""
  error : Option String := none
  deriving Repr, DecidableEq

/-- Whisper model name from `AIService.__init__`. -/
def whisperModel : String := "openai/whisper-large-v3"

/-- `AIService.process_audio(audio_path)`.  `fileExists` and `fileSize` describe
the file at `audio_path`; `hfKey` is whether `self.hf_api_key` is configured. -/
def process_audio (fileExists : Bool) (fileSize : Nat) (hfKey : Bool) (readOk : Bool)
    (outcome : AudioOutcome) : AudioResult :=
  if !fileExists then
    { status := "error", error := some "Audio file not found" }
  else if 25 * 1024 * 1024 < fileSize then
    { status := "error", error := some "Audio file too large (max 25MB)" }
  else if !hfKey then
    { status := "success"
      transcription := some
        { text := "Audio uploaded successfully! To enable transcription, please configure your HuggingFace API key."
          confidence := 0, language := "unknown" }
      model_used := "placeholder" }
  else if !readOk then
    { status := "error", error := some "Audio processing failed: read error" }
  else
    match outcome with
    | .ok200 text conf lang =>
      if pyStrip text ≠ "" then
        { status := "success"
          transcription := some { text := text, confidence := conf, language := lang }
          model_used := whisperModel }
      else
        { status := "success"
          transcription := some
            { text := "No speech detected in the audio file. Please try recording again with clearer audio."
              confidence := 0, language := "unknown" }
          model_used := whisperModel }
    | .http503 =>
      { status := "success"
        transcription := some
          { text := "The speech-to-text model is currently loading. Please try again in a moment."
            confidence := 0, language := "unknown" }
        model_used := "loading" }
    | .httpOther code =>
      { status := "success"
        transcription := some
          { text := "Audio transcription temporarily unavailable (service error " ++
              toString code ++ "). Please try again later."
            confidence := 0, language := "unknown" }
        model_used := "error" }
    | .timeout =>
      { status := "success"
        transcription := some
          { text := "Audio processing timeout - the file may be too long or the service is busy. Please try with a shorter audio clip."
            confidence := 0, language := "unknown" }
        model_used := "timeout" }
    | .apiExn msg =>
      { status := "success"
        transcription := some
          { text := "Audio uploaded successfully, but transcription failed due to a technical issue: " ++ msg
            confidence := 0, language := "unknown" }
        model_used := "error" }

/-- The provider-failure outcomes named by the spec: non-200/non-503 response,
model-loading 503, request timeout. -/
def audioProviderFailure : AudioOutcome → Bool
  | .http503 => true
  | .httpOther _ => true
  | .timeout => true
  | _ => false

/-! ## ai.py — `AIService.process_image` and the `APICallTracker` metric

`process_image` wraps its whole body in a single `APICallTracker` obtained from
`track_huggingface_call("image_processing")`; the tracker records exactly one
`APIMetric` when the body finishes (`__aexit__`), with default `status_code = 200`
unless `set_status` was called.  The two provider attempts are inputs:
`hfAttempt` is the `_process_image_with_hf_api` call (`Except.error` when it
raises — in the source that method is not defined anywhere, so the real call
always raises `AttributeError`), `localAttempt` is `_process_image_locally`
(which raises on any failure).  The result's `status` field is "success" or
"error"; `model_used` names the provider that produced it. -/

/-- The result dict of `process_image` (fields used by the claims). -/
structure ImageResult where
  status : String
  model_used : String := ""
  description : String := ""
  error : Option String := none
  deriving Repr, DecidableEq

/-- Mutable fields of `APICallTracker` that reach the recorded metric. -/
structure Tracker where
  status_code : Int := 200
  error_message : Option String := none
  request_size : Int := 0
  response_size : Int := 0
  deriving Repr, DecidableEq

/-- `APICallTracker.__aexit__`: build the `APIMetric` from the tracker state and
`record_metric` it.  `rt` is the elapsed wall-clock time of the tracked body. -/
def trackerExit (m : APIMonitor) (tr : Tracker) (service endpoint : String)
    (now : Nat) (rt : ℚ) : APIMonitor :=
  record_metric m
    { timestamp := now, service := service, endpoint := endpoint, method := "POST"
      status_code := tr.status_code, response_time := rt
      request_size := tr.request_size, response_size := tr.response_size
      error_message := tr.error_message } now

/-- `AIService.process_image(image_path, task_type)`: one tracker around the whole
HuggingFace-then-local fallback chain.  Returns the updated monitor and the
result dict. -/
def process_image (m : APIMonitor) (fileExists : Bool) (fileSize : Int)
    (hfAttempt : Except String ImageResult) (localAttempt : Except String ImageResult)
    (now : Nat) (rt : ℚ) : APIMonitor × ImageResult :=
  if !fileExists then
    -- early return without set_status: the metric keeps the default 200
    ( trackerExit m {} "huggingface" "image_processing" now rt
    , { status := "error", error := some "Image file not found" } )
  else
    let tr : Tracker := { request_size := fileSize }
    match hfAttempt with
    | .ok r =>
      if r.status = "success" then
        ( trackerExit m { tr with status_code := 200 } "huggingface" "image_processing" now rt, r )
      else
        -- non-success HF result: logged, fall through to local processing
        match localAttempt with
        | .ok r' =>
          ( trackerExit m
              { tr with status_code := if r'.status = "success" then 200 else 500 }
              "huggingface" "image_processing" now rt
          , r' )
        | .error e =>
          ( trackerExit m { tr with status_code := 500, error_message := some e }
              "huggingface" "image_processing" now rt
          , { status := "error", error := some e } )
    | .error _ =>
      -- the HF attempt raised (always the case in the source: the method is undefined)
      match localAttempt with
      | .ok r' =>
        ( trackerExit m
            { tr with status_code := if r'.status = "success" then 200 else 500 }
            "huggingface" "image_processing" now rt
        , r' )
      | .error e =>
        ( trackerExit m { tr with status_code := 500, error_message := some e }
            "huggingface" "image_processing" now rt
        , { status := "error", error := some e } )

/-! ## database.py — `DatabaseService`

State of the service: the selected backend (`connection_type`), the `initialized`
flag (set to `False` in `__init__` and — notably — never assigned `True` anywhere
in database.py), the four in-memory collections and the shared `next_id` counter.
External backends (PostgreSQL, Supabase) live outside the process; their probe
outcomes and call results are inputs of the model.  Records are structures with
the dict keys the memory branches actually read and write. -/

inductive ConnType where
  | notConnected   -- "none"
  | postgresql
  | supabase
  | memory
  deriving Repr, DecidableEq

/-- An in-memory task dict. -/
structure MemTask where
  id : Nat
  summary : String
  category : String
  priority : String
  status : String
  user_id : Option String
  created_at : ℚ
  updated_at : ℚ
  deriving Repr, DecidableEq

/-- An in-memory chat-history dict. -/
structure MemChat where
  id : Nat
  user_id : Option String
  message : String
  response : String
  created_at : ℚ
  deriving Repr, DecidableEq

/-- An in-memory user dict. -/
structure MemUser where
  id : Nat
  email : Option String
  created_at : ℚ
  deriving Repr, DecidableEq

/-- An in-memory uploaded-file dict. -/
structure MemFile where
  id : Nat
  filename : String
  user_id : Option String
  created_at : ℚ
  deriving Repr, DecidableEq

/-- The state of a `DatabaseService` instance. -/
structure DBService where
  connection_type : ConnType
  initialized : Bool
  mem_tasks : List MemTask
  mem_chat : List MemChat
  mem_users : List MemUser
  mem_files : List MemFile
  next_id : Nat
  deriving Repr, DecidableEq

/-- `DatabaseService.__init__`: no connection, `initialized = False`, empty
memory storage, `next_id = 1`. -/
def dbInit : DBService :=
  { connection_type := .notConnected
    initialized := false
    mem_tasks := [], mem_chat := [], mem_users := [], mem_files := []
    next_id := 1 }

/-- Outcomes of the two connectivity probes of `initialize_connections`.
`postgres_ok` covers everything `_try_postgresql` needs (SQLAlchemy importable, a
`DATABASE_URL` configured, engine creation and the test query succeeding);
`supabase_ok` likewise for `_try_supabase`. -/
structure ProbeEnv where
  postgres_ok : Bool
  supabase_ok : Bool
  deriving Repr, DecidableEq

/-- `DatabaseService.initialize_connections()`: try PostgreSQL, then Supabase,
then fall back to memory.  The probes set only `connection_type` (plus engine /
client handles outside this model); in database.py the `initialized` flag is not
touched, and nothing guards against re-probing on a repeated call. -/
def init_connections (db : DBService) (env : ProbeEnv) : DBService :=
  if env.postgres_ok then { db with connection_type := .postgresql }
  else if env.supabase_ok then { db with connection_type := .supabase }
  else { db with connection_type := .memory }

/-- Input dict for `create_task` (the keys the memory branch reads, with the
defaults `task_data.get(...)` would apply on the SQL path). -/
structure TaskDataIn where
  summary : String := ""
  category : String := "general"
  priority : String := "medium"
  status : String := "pending"
  user_id : Option String := none
  created_at : Option ℚ := none
  deriving Repr, DecidableEq

/-- The external result of a PostgreSQL or Supabase call, as an oracle input:
the Python code returns whatever the backend produced (or `None`/failure). -/
abbrev ExtTask := Option MemTask

/-- `DatabaseService.create_task(task_data)` at clock `now`.  Dispatches on
`connection_type`; the PostgreSQL and Supabase branches leave the in-process
state unchanged and return the backend's response `ext`; the memory branch
(taken for `connection_type` ∈ \x7bnone, memory\x7d) assigns `next_id`,
stamps timestamps, appends, and increments the counter. -/
def create_task (db : DBService) (d : TaskDataIn) (now : ℚ) (ext : ExtTask) :
    DBService × Option MemTask :=
  match db.connection_type with
  | .postgresql => (db, ext)
  | .supabase => (db, ext)
  | _ =>
    let t : MemTask :=
      { id := db.next_id
        summary := d.summary, category := d.category, priority := d.priority
        status := d.status, user_id := d.user_id
        created_at := d.created_at.getD now
        updated_at := now }
    ( { db with mem_tasks := db.mem_tasks ++ [t], next_id := db.next_id + 1 }
    , some t )

/-- A `task.update(updates)` patch: the fields an update request may carry. -/
structure TaskPatch where
  summary : Option String := none
  category : Option String := none
  priority : Option String := none
  status : Option String := none
  user_id : Option (Option String) := none
  deriving Repr, DecidableEq

/-- Apply a patch to a memory task dict (Python `dict.update`). -/
def applyPatch (t : MemTask) (p : TaskPatch) : MemTask :=
  { t with
    summary := p.summary.getD t.summary
    category := p.category.getD t.category
    priority := p.priority.getD t.priority
    status := p.status.getD t.status
    user_id := p.user_id.getD t.user_id }

/-- Update the first task with the given id (the Python `for` loop mutates the
first match and returns it). -/
def updateFirstTask (ts : List MemTask) (task_id : Nat) (p : TaskPatch) (now : ℚ) :
    List MemTask × Option MemTask :=
  match ts with
  | [] => ([], none)
  | t :: rest =>
    if t.id = task_id then
      let t' := { applyPatch t p with updated_at := now }
      (t' :: rest, some t')
    else
      let (rest', r) := updateFirstTask rest task_id p now
      (t :: rest', r)

/-- `DatabaseService.update_task(task_id, updates)` at clock `now`.  Dispatches on
`self.initialized` — not on `connection_type`: when the flag is false the
in-memory store is searched and mutated; otherwise the Supabase client is called
(even when PostgreSQL is the active backend) and `ext` is its response. -/
def update_task (db : DBService) (task_id : Nat) (p : TaskPatch) (now : ℚ)
    (ext : ExtTask) : DBService × Option MemTask :=
  if !db.initialized then
    let (ts', r) := updateFirstTask db.mem_tasks task_id p now
    ({ db with mem_tasks := ts' }, r)
  else
    (db, ext)

/-- `DatabaseService.delete_task(task_id)`.  Same dispatch on `self.initialized`:
when false, the in-memory list is filtered; otherwise the Supabase client is
called and `extOk` is whether that call returned without raising. -/
def delete_task (db : DBService) (task_id : Nat) (extOk : Bool) : DBService × Bool :=
  if !db.initialized then
    let remaining := db.mem_tasks.filter (fun t => t.id ≠ task_id)
    let deleted := remaining.length < db.mem_tasks.length
    ({ db with mem_tasks := remaining }, deleted)
  else
    (db, extOk)

/-- Input dict for `save_chat_message` (keys read by the memory branch). -/
structure ChatDataIn where
  user_id : Option String := none
  message : String := ""
  response : String := ""
  created_at : Option ℚ := none
  deriving Repr, DecidableEq

/-- `DatabaseService.save_chat_message(message_data)` at clock `now`.  Dispatches
on `connection_type`; the memory branch assigns `next_id` and increments it. -/
def save_chat_message (db : DBService) (d : ChatDataIn) (now : ℚ) (ext : Option MemChat) :
    DBService × Option MemChat :=
  match db.connection_type with
  | .postgresql => (db, ext)
  | .supabase => (db, ext)
  | _ =>
    let c : MemChat :=
      { id := db.next_id
        user_id := d.user_id, message := d.message, response := d.response
        created_at := d.created_at.getD now }
    ( { db with mem_chat := db.mem_chat ++ [c], next_id := db.next_id + 1 }
    , some c )

/-- Input dict for `create_or_get_user`. -/
structure UserDataIn where
  email : Option String := none
  created_at : Option ℚ := none
  deriving Repr, DecidableEq

/-- `DatabaseService.create_or_get_user(user_data)` at clock `now`.  Dispatches on
`self.initialized`; the memory branch first looks for an existing user with the
same email (no new id consumed), otherwise assigns `next_id` and increments. -/
def create_or_get_user (db : DBService) (d : UserDataIn) (now : ℚ) (ext : Option MemUser) :
    DBService × Option MemUser :=
  if !db.initialized then
    match d.email with
    | some e =>
      match db.mem_users.find? (fun u => u.email = some e) with
      | some u => (db, some u)
      | none =>
        let u : MemUser := { id := db.next_id, email := d.email, created_at := d.created_at.getD now }
        ({ db with mem_users := db.mem_users ++ [u], next_id := db.next_id + 1 }, some u)
    | none =>
      let u : MemUser := { id := db.next_id, email := none, created_at := d.created_at.getD now }
      ({ db with mem_users := db.mem_users ++ [u], next_id := db.next_id + 1 }, some u)
  else
    (db, ext)

/-- Input dict for `save_uploaded_file`. -/
structure FileDataIn where
  filename : String := ""
  user_id : Option String := none
  created_at : Option ℚ := none
  deriving Repr, DecidableEq

/-- `DatabaseService.save_uploaded_file(file_data)` at clock `now`.  Dispatches on
`self.initialized`; the memory branch assigns `next_id` and increments. -/
def save_uploaded_file (db : DBService) (d : FileDataIn) (now : ℚ) (ext : Option MemFile) :
    DBService × Option MemFile :=
  if !db.initialized then
    let f : MemFile := { id := db.next_id, filename := d.filename, user_id := d.user_id
                         created_at := d.created_at.getD now }
    ({ db with mem_files := db.mem_files ++ [f], next_id := db.next_id + 1 }, some f)
  else
    (db, ext)

/-! ### A creation trace over the memory backend (for the shared-counter claim) -/

/-- One record-creating operation (the data it carries plus the clock value and
external oracle of that call). -/
inductive CreateOp where
  | task (d : TaskDataIn) (now : ℚ) (ext : ExtTask)
  | chat (d : ChatDataIn) (now : ℚ) (ext : Option MemChat)
  | user (d : UserDataIn) (now : ℚ) (ext : Option MemUser)
  | file (d : FileDataIn) (now : ℚ) (ext : Option MemFile)
  deriving Repr

/-- Apply one creation operation, returning the new state and the id of the
newly created record, when one was created. -/
def stepCreate (db : DBService) (op : CreateOp) : DBService × Option Nat :=
  match op with
  | .task d now ext =>
    let (db', r) := create_task db d now ext
    (db', if db'.next_id = db.next_id then none else r.map MemTask.id)
  | .chat d now ext =>
    let (db', r) := save_chat_message db d now ext
    (db', if db'.next_id = db.next_id then none else r.map MemChat.id)
  | .user d now ext =>
    let (db', r) := create_or_get_user db d now ext
    (db', if db'.next_id = db.next_id then none else r.map MemUser.id)
  | .file d now ext =>
    let (db', r) := save_uploaded_file db d now ext
    (db', if db'.next_id = db.next_id then none else r.map MemFile.id)

/-- Run a sequence of creation operations, collecting the assigned ids in
creation order. -/
def runCreates (db : DBService) : List CreateOp → DBService × List Nat
  | [] => (db, [])
  | op :: ops =>
    ((runCreates (stepCreate db op).1 ops).1,
     (stepCreate db op).2.toList ++ (runCreates (stepCreate db op).1 ops).2)

/-- All ids present in the four in-memory collections. -/
def allIds (db : DBService) : List Nat :=
  db.mem_tasks.map MemTask.id ++ db.mem_chat.map MemChat.id ++
  db.mem_users.map MemUser.id ++ db.mem_files.map MemFile.id

/-! ## Helper lemmas -/

theorem getEntry?_setEntry_self {α : Type} (l : List (String × α)) (k : String) (v : α) :
    getEntry? (setEntry l k v) k = some v := by
  induction l with
  | nil => simp [setEntry, getEntry?]
  | cons hd t ih =>
    obtain ⟨k', v'⟩ := hd
    by_cases h : k' = k <;> simp [setEntry, getEntry?, h, ih]

theorem pushRing_ends {α : Type} (cap : Nat) (l : List α) (x : α) (h : 0 < cap) :
    ∃ pre, pushRing cap l x = pre ++ [x] := by
  unfold pushRing
  by_cases hlen : cap < (l ++ [x]).length
  · refine ⟨l.drop ((l ++ [x]).length - cap), ?_⟩
    rw [if_pos hlen, List.drop_append_of_le_length]
    simp only [List.length_append, List.length_cons, List.length_nil] at hlen ⊢
    omega
  · exact ⟨l, by rw [if_neg hlen]⟩

theorem pushRing_length {α : Type} (cap : Nat) (l : List α) (x : α) :
    (pushRing cap l x).length = min (l.length + 1) cap := by
  unfold pushRing
  by_cases hlen : cap < (l ++ [x]).length
  · rw [if_pos hlen]
    simp only [List.length_drop, List.length_append, List.length_cons, List.length_nil] at hlen ⊢
    omega
  · rw [if_neg hlen]
    simp only [List.length_append, List.length_cons, List.length_nil] at hlen ⊢
    omega

theorem check_rate_limits_metrics (m : APIMonitor) (s : String) (now : Nat) :
    (check_rate_limits m s now).1.metrics = m.metrics := by
  unfold check_rate_limits
  cases getEntry? m.rate_limits s <;> rfl

theorem check_rate_limits_stats (m : APIMonitor) (s : String) (now : Nat) :
    (check_rate_limits m s now).1.service_stats = m.service_stats := by
  unfold check_rate_limits
  cases getEntry? m.rate_limits s <;> rfl

theorem record_metric_metrics (m : APIMonitor) (metric : APIMetric) (now : Nat) :
    (record_metric m metric now).metrics = pushRing 10000 m.metrics metric := by
  unfold record_metric
  rw [check_rate_limits_metrics]

/-! ## The claims -/

/-- C4, counterexample: `initialize_connections` is not memoized.  A first call
whose PostgreSQL probe succeeds selects the postgresql backend; a second call on
the resulting service whose probes now both fail re-probes and switches the
active backend to memory — the two calls do not return the same active
backend. -/
theorem initialize_not_memoized_counterexample :
    (init_connections dbInit { postgres_ok := true, supabase_ok := false }).connection_type =
      ConnType.postgresql ∧
    (init_connections (init_connections dbInit { postgres_ok := true, supabase_ok := false })
        { postgres_ok := false, supabase_ok := false }).connection_type = ConnType.memory ∧
    (init_connections dbInit { postgres_ok := true, supabase_ok := false }).connection_type ≠
      (init_connections (init_connections dbInit { postgres_ok := true, supabase_ok := false })
        { postgres_ok := false, supabase_ok := false }).connection_type := by
  refine ⟨rfl, rfl, ?_⟩
  decide

/-- C4, amended: each call of `initialize_connections` re-runs the probes and the
selected backend is a function of the current probe outcomes alone — in
particular a repeated call with unchanged probe outcomes selects the same
backend (and the selection does not depend on the prior state of the service). -/
theorem initialize_reprobe_deterministic (db db' : DBService) (env : ProbeEnv) :
    (init_connections (init_connections db env) env).connection_type =
      (init_connections db env).connection_type ∧
    (init_connections db env).connection_type = (init_connections db' env).connection_type := by
  obtain ⟨p, s⟩ := env
  cases p <;> cases s <;> simp [init_connections]

/-- C5, counterexample: on the input text "need to buy milk." the extraction
returns no candidate at all: the `(?:you should|need to|plan to|will)\s+(.+)`
pattern captures "buy milk." (9 characters), which is below the 10-character
minimum and is discarded, and the 17-character text is too short (≤ 20) for the
generic fallback task — so the claimed single candidate does not exist. -/
theorem extract_buy_milk_counterexample :
    extract_tasks_from_response "need to buy milk." = [] := by
  rfl

/-- C5, amended: "need to buy milk." itself yields no candidate (its capture is
shorter than the 10-character minimum and the text is too short for the
fallback), but when the text captured after "need to" reaches 10 characters —
e.g. "need to buy milk today." — extraction returns exactly one candidate whose
title contains "buy milk" and whose priority is "medium". -/
theorem extract_buy_milk_amended :
    extract_tasks_from_response "need to buy milk." = [] ∧
    extract_tasks_from_response "need to buy milk today." =
      [{ title := "buy milk today.", summary := "buy milk today.", status := "pending"
         priority := "medium", category := "general" }] ∧
    containsSub "buy milk today." "buy milk" = true := by
  refine ⟨rfl, rfl, rfl⟩

/-- C1 (code bug): after a successful PostgreSQL probe the service's
`connection_type` is postgresql, but `initialized` is still `false` (database.py
never sets it), so `update_task` and `delete_task` — which dispatch on
`self.initialized`, not on `connection_type` — operate on the in-memory store.
Concretely: a task created before initialization lands in memory with id 1; after
`initialize_connections` selects postgresql, `update_task(1, ...)` mutates and
returns that in-memory task and `delete_task(1)` removes it from memory, for
every possible response `ext`/`extOk` of the external backend (which is never
consulted). -/
theorem update_delete_bypass_active_backend :
    ∀ (ext : ExtTask) (extOk : Bool),
    (init_connections (create_task dbInit { summary := "write report" } 0 none).1
        { postgres_ok := true, supabase_ok := false }).connection_type = ConnType.postgresql ∧
    (init_connections (create_task dbInit { summary := "write report" } 0 none).1
        { postgres_ok := true, supabase_ok := false }).initialized = false ∧
    (update_task
        (init_connections (create_task dbInit { summary := "write report" } 0 none).1
          { postgres_ok := true, supabase_ok := false })
        1 { status := some "completed" } 5 ext).2 =
      some { id := 1, summary := "write report", category := "general", priority := "medium"
             status := "completed", user_id := none, created_at := 0, updated_at := 5 } ∧
    (update_task
        (init_connections (create_task dbInit { summary := "write report" } 0 none).1
          { postgres_ok := true, supabase_ok := false })
        1 { status := some "completed" } 5 ext).1.mem_tasks =
      [{ id := 1, summary := "write report", category := "general", priority := "medium"
         status := "completed", user_id := none, created_at := 0, updated_at := 5 }] ∧
    (delete_task
        (init_connections (create_task dbInit { summary := "write report" } 0 none).1
          { postgres_ok := true, supabase_ok := false })
        1 extOk).1.mem_tasks = [] ∧
    (delete_task
        (init_connections (create_task dbInit { summary := "write report" } 0 none).1
          { postgres_ok := true, supabase_ok := false })
        1 extOk).2 = true := by
  intro ext extOk
  exact ⟨rfl, rfl, rfl, rfl, rfl, rfl⟩

/-- A successful (status 200) call metric with a 40-second latency. -/
def slowSuccessMetric : APIMetric :=
  { timestamp := 0, service := "groq", endpoint := "chat/completions", method := "POST"
    status_code := 200, response_time := 40, request_size := 10, response_size := 10 }

theorem slow_stats_eq :
    statsOf (record_metric (apiMonitorInit 0) slowSuccessMetric 0) "groq" =
      { total_requests := 1, total_errors := 0, total_response_time := 40
        last_success := some 0, last_failure := none, recent_response_times := [40] } := by
  simp [statsOf, record_metric, apiMonitorInit, check_rate_limits, getEntry?, setEntry,
        pushRing, slowSuccessMetric]

theorem slow_health_eq :
    get_service_health (record_metric (apiMonitorInit 0) slowSuccessMetric 0) "groq" 1 =
      { service := "groq", status := "down", last_success := 0, last_failure := none
        success_rate := 1, avg_response_time := 40, total_requests := 1, error_count := 0 } := by
  rw [get_service_health, slow_stats_eq]
  norm_num

/-- C2, counterexample: one recorded metric with status 200 and a 40-second
latency gives the provider a success rate of 1 (≥ 0.95), yet
`get_service_health` classifies it as "down", not "healthy": the
`success_rate < 0.5 or avg_response_time > 30` test overrides the success-rate
classification. -/
theorem health_status_counterexample :
    (get_service_health (record_metric (apiMonitorInit 0) slowSuccessMetric 0) "groq" 1).success_rate = 1 ∧
    (get_service_health (record_metric (apiMonitorInit 0) slowSuccessMetric 0) "groq" 1).status = "down" ∧
    (get_service_health (record_metric (apiMonitorInit 0) slowSuccessMetric 0) "groq" 1).status ≠ "healthy" := by
  rw [slow_health_eq]
  refine ⟨rfl, rfl, by decide⟩

theorem classify_spec (sr avg : ℚ) :
    ((if sr < 1/2 ∨ 30 < avg then "down" else if sr < 95/100 then "degraded" else "healthy")
        = "down" ↔ sr < 1/2 ∨ 30 < avg) ∧
    ((if sr < 1/2 ∨ 30 < avg then "down" else if sr < 95/100 then "degraded" else "healthy")
        = "degraded" ↔ (1/2 ≤ sr ∧ sr < 95/100) ∧ avg ≤ 30) ∧
    ((if sr < 1/2 ∨ 30 < avg then "down" else if sr < 95/100 then "degraded" else "healthy")
        = "healthy" ↔ 95/100 ≤ sr ∧ avg ≤ 30) := by
  by_cases hdown : sr < 1/2 ∨ 30 < avg
  · rw [if_pos hdown]
    refine ⟨⟨fun _ => hdown, fun _ => rfl⟩, ?_, ?_⟩
    · constructor
      · intro h
        exact absurd h (by decide)
      · rintro ⟨⟨h1, _⟩, h3⟩
        rcases hdown with h | h
        · exact absurd h (not_lt.mpr h1)
        · exact absurd h (not_lt.mpr h3)
    · constructor
      · intro h
        exact absurd h (by decide)
      · rintro ⟨h1, h3⟩
        rcases hdown with h | h
        · exact absurd h (not_lt.mpr (le_trans (by norm_num) h1))
        · exact absurd h (not_lt.mpr h3)
  · rw [if_neg hdown]
    push_neg at hdown
    obtain ⟨hge, hle⟩ := hdown
    by_cases hdeg : sr < 95/100
    · rw [if_pos hdeg]
      refine ⟨?_, ?_, ?_⟩
      · constructor
        · intro h
          exact absurd h (by decide)
        · rintro (h | h)
          · exact absurd h (not_lt.mpr hge)
          · exact absurd h (not_lt.mpr hle)
      · exact ⟨fun _ => ⟨⟨hge, hdeg⟩, hle⟩, fun _ => rfl⟩
      · constructor
        · intro h
          exact absurd h (by decide)
        · rintro ⟨h1, _⟩
          exact absurd hdeg (not_lt.mpr h1)
    · rw [if_neg hdeg]
      push_neg at hdeg
      refine ⟨?_, ?_, ?_⟩
      · constructor
        · intro h
          exact absurd h (by decide)
        · rintro (h | h)
          · exact absurd h (not_lt.mpr hge)
          · exact absurd h (not_lt.mpr hle)
      · constructor
        · intro h
          exact absurd h (by decide)
        · rintro ⟨⟨_, h2⟩, _⟩
          exact absurd h2 (not_lt.mpr hdeg)
      · exact ⟨fun _ => ⟨hdeg, hle⟩, fun _ => rfl⟩

/-- C2, amended: for a provider with at least one recorded metric the status is
"down" iff success_rate < 0.5 OR avg_response_time > 30s (this test overrides the
success-rate classes, so a provider with success_rate ≥ 0.95 but average latency
over 30s is "down", not "healthy"); "degraded" iff 0.5 ≤ success_rate < 0.95 and
not down; "healthy" iff success_rate ≥ 0.95 and avg_response_time ≤ 30s; and with
zero recorded metrics the status is "unknown". -/
theorem health_status_classification (m : APIMonitor) (service : String) (now : Nat) :
    ((statsOf m service).total_requests = 0 →
      (get_service_health m service now).status = "unknown") ∧
    ((statsOf m service).total_requests ≠ 0 →
      (get_service_health m service now).success_rate =
        (((statsOf m service).total_requests : ℚ) - ((statsOf m service).total_errors : ℚ)) /
          ((statsOf m service).total_requests : ℚ) ∧
      (get_service_health m service now).avg_response_time =
        (statsOf m service).total_response_time / ((statsOf m service).total_requests : ℚ) ∧
      ((get_service_health m service now).status = "down" ↔
        (get_service_health m service now).success_rate < 1/2 ∨
        30 < (get_service_health m service now).avg_response_time) ∧
      ((get_service_health m service now).status = "degraded" ↔
        (1/2 ≤ (get_service_health m service now).success_rate ∧
         (get_service_health m service now).success_rate < 95/100) ∧
        (get_service_health m service now).avg_response_time ≤ 30) ∧
      ((get_service_health m service now).status = "healthy" ↔
        95/100 ≤ (get_service_health m service now).success_rate ∧
        (get_service_health m service now).avg_response_time ≤ 30)) := by
  constructor
  · intro h0
    simp only [get_service_health, if_pos h0]
  · intro h0
    have hs : (get_service_health m service now).success_rate =
        (((statsOf m service).total_requests : ℚ) - ((statsOf m service).total_errors : ℚ)) /
          ((statsOf m service).total_requests : ℚ) := by
      simp only [get_service_health, if_neg h0]
    have ha : (get_service_health m service now).avg_response_time =
        (statsOf m service).total_response_time / ((statsOf m service).total_requests : ℚ) := by
      simp only [get_service_health, if_neg h0]
    have hst : (get_service_health m service now).status =
        (if (((statsOf m service).total_requests : ℚ) - ((statsOf m service).total_errors : ℚ)) /
              ((statsOf m service).total_requests : ℚ) < 1/2 ∨
            30 < (statsOf m service).total_response_time / ((statsOf m service).total_requests : ℚ)
         then "down"
         else if (((statsOf m service).total_requests : ℚ) - ((statsOf m service).total_errors : ℚ)) /
              ((statsOf m service).total_requests : ℚ) < 95/100
         then "degraded" else "healthy") := by
      simp only [get_service_health, if_neg h0]
    refine ⟨hs, ha, ?_, ?_, ?_⟩
    · rw [hst, hs, ha]
      exact (classify_spec _ _).1
    · rw [hst, hs, ha]
      exact (classify_spec _ _).2.1
    · rw [hst, hs, ha]
      exact (classify_spec _ _).2.2

/-- C2, witness: the classification theorem applied to the concrete monitor with
one recorded slow success (so one recorded request), discharging its
hypothesis. -/
theorem health_status_classification_witness :
    (get_service_health (record_metric (apiMonitorInit 0) slowSuccessMetric 0) "groq" 1).success_rate =
      (((statsOf (record_metric (apiMonitorInit 0) slowSuccessMetric 0) "groq").total_requests : ℚ) -
        ((statsOf (record_metric (apiMonitorInit 0) slowSuccessMetric 0) "groq").total_errors : ℚ)) /
        ((statsOf (record_metric (apiMonitorInit 0) slowSuccessMetric 0) "groq").total_requests : ℚ) ∧
    ((get_service_health (record_metric (apiMonitorInit 0) slowSuccessMetric 0) "groq" 1).status = "healthy" ↔
      95/100 ≤ (get_service_health (record_metric (apiMonitorInit 0) slowSuccessMetric 0) "groq" 1).success_rate ∧
      (get_service_health (record_metric (apiMonitorInit 0) slowSuccessMetric 0) "groq" 1).avg_response_time ≤ 30) :=
  ⟨((health_status_classification (record_metric (apiMonitorInit 0) slowSuccessMetric 0) "groq" 1).2
      (by rw [slow_stats_eq]; decide)).1,
   ((health_status_classification (record_metric (apiMonitorInit 0) slowSuccessMetric 0) "groq" 1).2
      (by rw [slow_stats_eq]; decide)).2.2.2.2⟩

theorem statsOf_record (m : APIMonitor) (metric : APIMetric) (now : Nat) :
    statsOf (record_metric m metric now) metric.service =
      (let stats0 := statsOf m metric.service
       let stats1 :=
         { stats0 with
           total_requests := stats0.total_requests + 1
           total_response_time := stats0.total_response_time + metric.response_time
           recent_response_times := pushRing 100 stats0.recent_response_times metric.response_time }
       if 400 ≤ metric.status_code then
         { stats1 with total_errors := stats1.total_errors + 1, last_failure := some metric.timestamp }
       else
         { stats1 with last_success := some metric.timestamp }) := by
  unfold record_metric statsOf
  rw [check_rate_limits_stats]
  simp only [getEntry?_setEntry_self, Option.getD_some]

theorem record_metric_requests (m : APIMonitor) (metric : APIMetric) (now : Nat) :
    (statsOf (record_metric m metric now) metric.service).total_requests =
      (statsOf m metric.service).total_requests + 1 := by
  rw [statsOf_record]
  by_cases h : (400 : Int) ≤ metric.status_code <;> simp [h]

/-- A metric with negative latency and sizes (nothing in monitoring.py prevents
a caller from constructing one). -/
def negMetric : APIMetric :=
  { timestamp := 0, service := "groq", endpoint := "chat/completions", method := "POST"
    status_code := 200, response_time := -5, request_size := -3, response_size := -7 }

/-- C6, counterexample: recording a metric with latency −5 and request size −3
stores both values unchanged — the stored metric keeps `request_size = -3` and
the per-provider aggregate `total_response_time` becomes −5, i.e. strictly
negative: nothing is clamped to zero. -/
theorem record_metric_no_clamp_counterexample :
    (record_metric (apiMonitorInit 0) negMetric 0).metrics = [negMetric] ∧
    ((record_metric (apiMonitorInit 0) negMetric 0).metrics.map APIMetric.request_size) = [-3] ∧
    (statsOf (record_metric (apiMonitorInit 0) negMetric 0) "groq").total_response_time = -5 ∧
    (statsOf (record_metric (apiMonitorInit 0) negMetric 0) "groq").total_response_time < 0 := by
  have h : (statsOf (record_metric (apiMonitorInit 0) negMetric 0) "groq").total_response_time = -5 := by
    simp [statsOf, record_metric, apiMonitorInit, check_rate_limits, getEntry?, setEntry,
          pushRing, negMetric]
  exact ⟨rfl, rfl, h, by rw [h]; norm_num⟩

/-- C6, amended: `record_metric` is a total function — it accepts every metric,
including ones with negative sizes and latencies — but it performs no clamping:
the metric is stored in the ring buffer verbatim, and its raw (possibly
negative) `response_time` is added to the provider aggregate unchanged. -/
theorem record_metric_total_unclamped (m : APIMonitor) (metric : APIMetric) (now : Nat) :
    (∃ pre, (record_metric m metric now).metrics = pre ++ [metric]) ∧
    (statsOf (record_metric m metric now) metric.service).total_response_time =
      (statsOf m metric.service).total_response_time + metric.response_time ∧
    (statsOf (record_metric m metric now) metric.service).total_requests =
      (statsOf m metric.service).total_requests + 1 := by
  refine ⟨?_, ?_, record_metric_requests m metric now⟩
  · rw [record_metric_metrics]
    exact pushRing_ends _ _ _ (by norm_num)
  · rw [statsOf_record]
    by_cases h : (400 : Int) ≤ metric.status_code <;> simp [h]

/-- C7: soft rate limiting.  For any provider whose window counter has already
reached (or passed) its per-minute ceiling, a further call is processed exactly
like any other: the metric is appended to the buffer, the request count grows,
and the window counter is incremented (or reset to 1 when the reset time has
elapsed, with a new reset time one minute ahead) — the call is never blocked or
rejected.  Crossing 80% of the ceiling only makes `_check_rate_limits` produce a
warning signal (the `Bool` here, a log line in the source), which changes
neither the metrics nor the aggregates. -/
theorem rate_limit_never_blocks (m : APIMonitor) (metric : APIMetric) (now : Nat)
    (rl : RateLimit)
    (h1 : getEntry? m.rate_limits metric.service = some rl)
    (h2 : rl.requests_per_minute ≤ rl.current_count) :
    (∃ pre, (record_metric m metric now).metrics = pre ++ [metric]) ∧
    (statsOf (record_metric m metric now) metric.service).total_requests =
      (statsOf m metric.service).total_requests + 1 ∧
    getEntry? (record_metric m metric now).rate_limits metric.service =
      some (if rl.reset_time ≤ now then
              { requests_per_minute := rl.requests_per_minute, current_count := 1
                reset_time := now + 60 }
            else { rl with current_count := rl.current_count + 1 }) ∧
    (¬ rl.reset_time ≤ now → (check_rate_limits m metric.service now).2 = true) ∧
    (check_rate_limits m metric.service now).1.metrics = m.metrics ∧
    (check_rate_limits m metric.service now).1.service_stats = m.service_stats := by
  refine ⟨?_, record_metric_requests m metric now, ?_, ?_,
    check_rate_limits_metrics m metric.service now, check_rate_limits_stats m metric.service now⟩
  · rw [record_metric_metrics]
    exact pushRing_ends _ _ _ (by norm_num)
  · unfold record_metric check_rate_limits
    simp only [h1]
    by_cases hr : rl.reset_time ≤ now <;>
      simp [hr, getEntry?_setEntry_self]
  · intro hr
    unfold check_rate_limits
    simp only [h1, if_neg hr]
    simp only [decide_eq_true_eq]
    omega

/-- A monitor whose groq window counter already sits at its ceiling of 30. -/
def busyMonitor : APIMonitor :=
  { metrics := [], service_stats := []
    rate_limits := [("groq", { requests_per_minute := 30, current_count := 30, reset_time := 100 })] }

/-- A normal successful call arriving at clock 50, inside the busy window. -/
def busyMetric : APIMetric :=
  { timestamp := 50, service := "groq", endpoint := "chat/completions", method := "POST"
    status_code := 200, response_time := 1, request_size := 5, response_size := 5 }

/-- C7, witness: the never-blocks theorem applied to the saturated monitor —
the call at clock 50 (before the reset time 100) is still recorded and the
counter moves from 30 to 31. -/
theorem rate_limit_never_blocks_witness :
    (∃ pre, (record_metric busyMonitor busyMetric 50).metrics = pre ++ [busyMetric]) ∧
    (statsOf (record_metric busyMonitor busyMetric 50) busyMetric.service).total_requests =
      (statsOf busyMonitor busyMetric.service).total_requests + 1 ∧
    getEntry? (record_metric busyMonitor busyMetric 50).rate_limits busyMetric.service =
      some { requests_per_minute := 30, current_count := 31, reset_time := 100 } ∧
    (¬ (100 : Nat) ≤ 50 → (check_rate_limits busyMonitor busyMetric.service 50).2 = true) ∧
    (check_rate_limits busyMonitor busyMetric.service 50).1.metrics = busyMonitor.metrics ∧
    (check_rate_limits busyMonitor busyMetric.service 50).1.service_stats = busyMonitor.service_stats :=
  rate_limit_never_blocks busyMonitor busyMetric 50
    { requests_per_minute := 30, current_count := 30, reset_time := 100 } rfl (by decide)

/-- C8, counterexample: with a configured client, a provider call that completes
with empty content is passed through verbatim — `generate_response` returns a
result whose `response` field is the empty string (with status "success"), so
the response field is not always non-empty text. -/
theorem generate_response_empty_counterexample :
    (generate_response true "llama3-8b-8192" (GroqOutcome.ok "" 0) "hello" none).response = "" ∧
    (generate_response true "llama3-8b-8192" (GroqOutcome.ok "" 0) "hello" none).status = "success" := by
  exact ⟨rfl, rfl⟩

/-- C8, amended: `generate_response` is a total function (every provider outcome
is converted into a result dict, never an exception).  With no Groq client the
result is a clearly labelled non-empty placeholder with status "placeholder";
on a provider exception the result is a fixed non-empty apology with status
"api_error"; on provider success the provider text is returned verbatim with
status "success" — so the response is non-empty in every case except when the
provider itself returns empty text. -/
theorem generate_response_amended (client : Bool) (model : String) (outcome : GroqOutcome)
    (prompt : String) (ctx : Option String) :
    (client = false →
      (generate_response client model outcome prompt ctx).status = "placeholder" ∧
      (generate_response client model outcome prompt ctx).response =
        "[PLACEHOLDER MODE] You said: " ++ prompt ++
        "\n\nI\x27m IntelliAssist.AI, ready to help with your tasks! To enable full AI capabilities, please add your Groq API key to the .env file." ∧
      (generate_response client model outcome prompt ctx).response ≠ "") ∧
    (∀ msg, client = true → outcome = GroqOutcome.exn msg →
      (generate_response client model outcome prompt ctx).status = "api_error" ∧
      (generate_response client model outcome prompt ctx).response ≠ "") ∧
    (∀ text tokens, client = true → outcome = GroqOutcome.ok text tokens →
      (generate_response client model outcome prompt ctx).status = "success" ∧
      (generate_response client model outcome prompt ctx).response = text) := by
  refine ⟨?_, ?_, ?_⟩
  · intro hc
    subst hc
    refine ⟨rfl, rfl, fun h => ?_⟩
    have h2 : ("[PLACEHOLDER MODE] You said: " ++ prompt ++
        "\n\nI\x27m IntelliAssist.AI, ready to help with your tasks! To enable full AI capabilities, please add your Groq API key to the .env file." : String) = "" := h
    have hlen := congrArg String.length h2
    rw [String.length_append, String.length_append] at hlen
    have hpos : 0 < ("[PLACEHOLDER MODE] You said: " : String).length := by decide
    have hz : ("" : String).length = 0 := rfl
    omega
  · intro msg hc ho
    subst hc
    subst ho
    refine ⟨rfl, fun h => ?_⟩
    have h2 : ("I\x27m experiencing some technical difficulties connecting to my AI systems. Please try again in a moment, or check that your API credentials are properly configured." : String) = "" := h
    exact absurd h2 (by decide)
  · intro text tokens hc ho
    subst hc
    subst ho
    exact ⟨rfl, rfl⟩

/-- C8, witness: the amended theorem applied at concrete inputs — an
unconfigured client yields the placeholder status, and a configured client with
a failing provider yields the non-empty apology. -/
theorem generate_response_amended_witness :
    (generate_response false "llama3-8b-8192" (GroqOutcome.ok "hi" 1) "plan my day" none).status =
      "placeholder" ∧
    (generate_response true "llama3-8b-8192" (GroqOutcome.exn "boom") "plan my day" none).status =
      "api_error" ∧
    (generate_response true "llama3-8b-8192" (GroqOutcome.exn "boom") "plan my day" none).response ≠ "" :=
  ⟨((generate_response_amended false "llama3-8b-8192" (GroqOutcome.ok "hi" 1) "plan my day" none).1
      rfl).1,
   ((generate_response_amended true "llama3-8b-8192" (GroqOutcome.exn "boom") "plan my day" none).2.1
      "boom" rfl rfl).1,
   ((generate_response_amended true "llama3-8b-8192" (GroqOutcome.exn "boom") "plan my day" none).2.1
      "boom" rfl rfl).2⟩

/-- C9: every provider-side transcription failure on a present, within-limit
audio file — a 503 model-loading response, any other non-200 status, or a
request timeout — produces a result with status "success" whose transcription is
a placeholder with confidence 0.0; and a result with status "error" arises
exactly when the file is missing, exceeds the 25MB limit, or an exception
escapes outside the guarded provider call (the file-read failure `readOk =
false`; exceptions raised inside the provider call itself are caught and also
converted to placeholder successes). -/
theorem process_audio_error_policy (fileExists : Bool) (fileSize : Nat) (hfKey readOk : Bool)
    (outcome : AudioOutcome) :
    (fileExists = true → fileSize ≤ 25 * 1024 * 1024 → hfKey = true → readOk = true →
      audioProviderFailure outcome = true →
      (process_audio fileExists fileSize hfKey readOk outcome).status = "success" ∧
      ((process_audio fileExists fileSize hfKey readOk outcome).transcription.map
        Transcription.confidence) = some 0) ∧
    ((process_audio fileExists fileSize hfKey readOk outcome).status = "error" ↔
      fileExists = false ∨ 25 * 1024 * 1024 < fileSize ∨ (hfKey = true ∧ readOk = false)) := by
  constructor
  · intro he hs hk hr hf
    subst he
    subst hk
    subst hr
    have hns : (25 * 1024 * 1024 < fileSize) = False := eq_false (not_lt.mpr hs)
    cases outcome <;> simp [process_audio, audioProviderFailure, hns] at hf ⊢
  · by_cases hs : 25 * 1024 * 1024 < fileSize
    · have hst := eq_true hs
      cases fileExists <;> simp [process_audio, hst, hs]
    · have hsf := eq_false hs
      have hsle := not_lt.mp hs
      cases fileExists <;> cases hfKey <;> cases readOk <;> cases outcome <;>
        simp [process_audio, hsf, hs] <;>
        try (rename_i text _ _
             by_cases ht : pyStrip text = "" <;> simp [ht])

/-- C9, witness: the policy theorem at a concrete input — an existing 1000-byte
file, configured key, successful read, and a timed-out provider call yield a
success with a confidence-0 placeholder, and the error characterization holds
there. -/
theorem process_audio_error_policy_witness :
    ((process_audio true 1000 true true AudioOutcome.timeout).status = "success" ∧
      ((process_audio true 1000 true true AudioOutcome.timeout).transcription.map
        Transcription.confidence) = some 0) ∧
    ((process_audio true 1000 true true AudioOutcome.timeout).status = "error" ↔
      true = false ∨ 25 * 1024 * 1024 < 1000 ∨ (true = true ∧ true = false)) :=
  ⟨(process_audio_error_policy true 1000 true true AudioOutcome.timeout).1
      rfl (by norm_num) rfl rfl rfl,
   (process_audio_error_policy true 1000 true true AudioOutcome.timeout).2⟩

/-- The result `_process_image_locally` produces on a successful local caption. -/
def localOkResult : ImageResult :=
  { status := "success", model_used := "Salesforce/blip-image-captioning-base (local)"
    description := "a desk with papers" }

/-- C3, counterexample: a two-provider chain (HuggingFace attempt raising — as it
always does in the source, `_process_image_with_hf_api` is undefined — then the
local model succeeding) records exactly ONE metric entry, a success with status
code 200, not the claimed two entries (one error + one success): the single
tracker wraps the whole fallback chain, so per-provider attempts are not
individually recorded. -/
theorem pipeline_metrics_counterexample :
    (process_image (apiMonitorInit 0) true 1000
        (Except.error "AttributeError: _process_image_with_hf_api")
        (Except.ok localOkResult) 7 2).1.metrics.length = 1 ∧
    ((process_image (apiMonitorInit 0) true 1000
        (Except.error "AttributeError: _process_image_with_hf_api")
        (Except.ok localOkResult) 7 2).1.metrics.map APIMetric.status_code) = [200] ∧
    (process_image (apiMonitorInit 0) true 1000
        (Except.error "AttributeError: _process_image_with_hf_api")
        (Except.ok localOkResult) 7 2).2 = localOkResult := by
  exact ⟨rfl, rfl, rfl⟩

/-- C3, amended: when the first provider fails and the second succeeds, the
pipeline does return the second provider's successful result (success is
attributed to the last provider), but the whole chain is wrapped in one
`APICallTracker`, so exactly one metric entry is recorded per pipeline
invocation — a single success (status 200) here, never N−1 errors plus one
success. -/
theorem pipeline_single_metric (m : APIMonitor) (size : Int) (hmsg : String)
    (r : ImageResult) (now : Nat) (rt : ℚ) (h : r.status = "success") :
    (process_image m true size (Except.error hmsg) (Except.ok r) now rt).2 = r ∧
    (process_image m true size (Except.error hmsg) (Except.ok r) now rt).1.metrics.length =
      min (m.metrics.length + 1) 10000 ∧
    (∃ pre, (process_image m true size (Except.error hmsg) (Except.ok r) now rt).1.metrics =
      pre ++ [{ timestamp := now, service := "huggingface", endpoint := "image_processing"
                method := "POST", status_code := 200, response_time := rt
                request_size := size, response_size := 0, error_message := none }]) := by
  have hb : (process_image m true size (Except.error hmsg) (Except.ok r) now rt) =
      ( trackerExit m { request_size := size, status_code := 200 } "huggingface"
          "image_processing" now rt
      , r ) := by
    simp [process_image, h]
  refine ⟨by rw [hb], ?_, ?_⟩
  · rw [hb]
    show (record_metric m _ now).metrics.length = _
    rw [record_metric_metrics, pushRing_length]
  · rw [hb]
    show ∃ _, (record_metric m _ now).metrics = _
    rw [record_metric_metrics]
    exact pushRing_ends _ _ _ (by norm_num)

/-- C3, witness: the single-metric theorem applied to the concrete chain of the
counterexample (empty monitor, failing first provider, succeeding local
provider). -/
theorem pipeline_single_metric_witness :
    (process_image (apiMonitorInit 0) true 1000 (Except.error "AttributeError")
        (Except.ok localOkResult) 7 2).2 = localOkResult ∧
    (process_image (apiMonitorInit 0) true 1000 (Except.error "AttributeError")
        (Except.ok localOkResult) 7 2).1.metrics.length =
      min ((apiMonitorInit 0).metrics.length + 1) 10000 ∧
    (∃ pre, (process_image (apiMonitorInit 0) true 1000 (Except.error "AttributeError")
        (Except.ok localOkResult) 7 2).1.metrics =
      pre ++ [{ timestamp := 7, service := "huggingface", endpoint := "image_processing"
                method := "POST", status_code := 200, response_time := 2
                request_size := 1000, response_size := 0, error_message := none }]) :=
  pipeline_single_metric (apiMonitorInit 0) 1000 "AttributeError" localOkResult 7 2 rfl

/-! ### C10: the shared `next_id` counter on the memory backend -/

/-- The id invariant of the in-memory storage: every stored id is below the
shared counter, and the ids are pairwise distinct across all four collections. -/
def IdInv (db : DBService) : Prop :=
  (∀ i ∈ allIds db, i < db.next_id) ∧ (allIds db).Nodup

theorem idinv_extend {X Y : List Nat} {n : Nat}
    (hb : ∀ i ∈ X ++ Y, i < n) (hnd : (X ++ Y).Nodup) :
    (∀ i ∈ X ++ n :: Y, i < n + 1) ∧ (X ++ n :: Y).Nodup := by
  constructor
  · intro i hi
    rcases List.mem_append.mp hi with h | h
    · exact Nat.lt_succ_of_lt (hb i (List.mem_append_left Y h))
    · rcases List.mem_cons.mp h with rfl | h
      · exact Nat.lt_succ_self i
      · exact Nat.lt_succ_of_lt (hb i (List.mem_append_right X h))
  · rw [List.nodup_middle]
    exact List.nodup_cons.mpr ⟨fun hm => lt_irrefl n (hb n hm), hnd⟩

theorem IdInv_insert (db' : DBService) (X Y : List Nat) (n : Nat)
    (e1 : allIds db' = X ++ n :: Y)
    (e2 : db'.next_id = n + 1)
    (hb : ∀ i ∈ X ++ Y, i < n) (hnd : (X ++ Y).Nodup) :
    IdInv db' := by
  refine ⟨?_, ?_⟩
  · rw [e1, e2]
    exact (idinv_extend hb hnd).1
  · rw [e1]
    exact (idinv_extend hb hnd).2

theorem stepCreate_inv (db : DBService) (op : CreateOp)
    (hc : db.connection_type = ConnType.memory) (hi : db.initialized = false)
    (hinv : IdInv db) :
    IdInv (stepCreate db op).1 ∧
    (stepCreate db op).1.connection_type = ConnType.memory ∧
    (stepCreate db op).1.initialized = false ∧
    db.next_id ≤ (stepCreate db op).1.next_id ∧
    (∀ i, (stepCreate db op).2 = some i →
      i = db.next_id ∧ (stepCreate db op).1.next_id = db.next_id + 1) := by
  obtain ⟨hb, hnd⟩ := hinv
  have e2 : db.mem_tasks.map MemTask.id ++
      (db.mem_chat.map MemChat.id ++ (db.mem_users.map MemUser.id ++ db.mem_files.map MemFile.id)) =
      allIds db := by
    simp [allIds]
  cases op with
  | task d now ext =>
    refine ⟨?_, ?_, ?_, ?_, ?_⟩
    · refine IdInv_insert _ (db.mem_tasks.map MemTask.id)
        (db.mem_chat.map MemChat.id ++ (db.mem_users.map MemUser.id ++ db.mem_files.map MemFile.id))
        db.next_id ?_ ?_ (fun i hi2 => hb i (e2 ▸ hi2)) (e2.symm ▸ hnd)
      · simp [stepCreate, create_task, hc, allIds]
      · simp [stepCreate, create_task, hc]
    · simp [stepCreate, create_task, hc]
    · simp [stepCreate, create_task, hc, hi]
    · simp [stepCreate, create_task, hc]
    · intro i h
      simp [stepCreate, create_task, hc] at h
      simp [stepCreate, create_task, hc, h]
  | chat d now ext =>
    refine ⟨?_, ?_, ?_, ?_, ?_⟩
    · refine IdInv_insert _
        (db.mem_tasks.map MemTask.id ++ db.mem_chat.map MemChat.id)
        (db.mem_users.map MemUser.id ++ db.mem_files.map MemFile.id)
        db.next_id ?_ ?_ ?_ ?_
      · simp [stepCreate, save_chat_message, hc, allIds]
      · simp [stepCreate, save_chat_message, hc]
      · intro i hi2
        refine hb i (e2 ▸ ?_)
        simpa [List.append_assoc] using hi2
      · have : (db.mem_tasks.map MemTask.id ++ db.mem_chat.map MemChat.id) ++
            (db.mem_users.map MemUser.id ++ db.mem_files.map MemFile.id) = allIds db := by
          simpa [List.append_assoc] using e2
        exact this.symm ▸ hnd
    · simp [stepCreate, save_chat_message, hc]
    · simp [stepCreate, save_chat_message, hc, hi]
    · simp [stepCreate, save_chat_message, hc]
    · intro i h
      simp [stepCreate, save_chat_message, hc] at h
      simp [stepCreate, save_chat_message, hc, h]
  | user d now ext =>
    cases hd : d.email with
    | some e =>
      cases hf : db.mem_users.find? (fun u => u.email = some e) with
      | some u =>
        have hstep : (stepCreate db (CreateOp.user d now ext)).1 = db := by
          simp [stepCreate, create_or_get_user, hi, hd, hf]
        refine ⟨?_, ?_, ?_, ?_, ?_⟩
        · rw [hstep]
          exact ⟨hb, hnd⟩
        · rw [hstep]
          exact hc
        · rw [hstep]
          exact hi
        · rw [hstep]
        · intro i h
          simp [stepCreate, create_or_get_user, hi, hd, hf] at h
      | none =>
        refine ⟨?_, ?_, ?_, ?_, ?_⟩
        · refine IdInv_insert _
            (db.mem_tasks.map MemTask.id ++ (db.mem_chat.map MemChat.id ++ db.mem_users.map MemUser.id))
            (db.mem_files.map MemFile.id)
            db.next_id ?_ ?_ ?_ ?_
          · simp [stepCreate, create_or_get_user, hi, hd, hf, allIds]
          · simp [stepCreate, create_or_get_user, hi, hd, hf]
          · intro i hi2
            refine hb i (e2 ▸ ?_)
            simpa [List.append_assoc] using hi2
          · have : (db.mem_tasks.map MemTask.id ++
                (db.mem_chat.map MemChat.id ++ db.mem_users.map MemUser.id)) ++
                db.mem_files.map MemFile.id = allIds db := by
              simpa [List.append_assoc] using e2
            exact this.symm ▸ hnd
        · simp [stepCreate, create_or_get_user, hi, hd, hf, hc]
        · simp [stepCreate, create_or_get_user, hi, hd, hf]
        · simp [stepCreate, create_or_get_user, hi, hd, hf]
        · intro i h
          simp [stepCreate, create_or_get_user, hi, hd, hf] at h
          simp [stepCreate, create_or_get_user, hi, hd, hf, h]
    | none =>
      refine ⟨?_, ?_, ?_, ?_, ?_⟩
      · refine IdInv_insert _
          (db.mem_tasks.map MemTask.id ++ (db.mem_chat.map MemChat.id ++ db.mem_users.map MemUser.id))
          (db.mem_files.map MemFile.id)
          db.next_id ?_ ?_ ?_ ?_
        · simp [stepCreate, create_or_get_user, hi, hd, allIds]
        · simp [stepCreate, create_or_get_user, hi, hd]
        · intro i hi2
          refine hb i (e2 ▸ ?_)
          simpa [List.append_assoc] using hi2
        · have : (db.mem_tasks.map MemTask.id ++
              (db.mem_chat.map MemChat.id ++ db.mem_users.map MemUser.id)) ++
              db.mem_files.map MemFile.id = allIds db := by
            simpa [List.append_assoc] using e2
          exact this.symm ▸ hnd
      · simp [stepCreate, create_or_get_user, hi, hd, hc]
      · simp [stepCreate, create_or_get_user, hi, hd]
      · simp [stepCreate, create_or_get_user, hi, hd]
      · intro i h
        simp [stepCreate, create_or_get_user, hi, hd] at h
        simp [stepCreate, create_or_get_user, hi, hd, h]
  | file d now ext =>
    refine ⟨?_, ?_, ?_, ?_, ?_⟩
    · refine IdInv_insert _
        (db.mem_tasks.map MemTask.id ++
          (db.mem_chat.map MemChat.id ++ (db.mem_users.map MemUser.id ++ db.mem_files.map MemFile.id)))
        [] db.next_id ?_ ?_ ?_ ?_
      · simp [stepCreate, save_uploaded_file, hi, allIds]
      · simp [stepCreate, save_uploaded_file, hi]
      · intro i hi2
        refine hb i (e2 ▸ ?_)
        simpa [List.append_assoc] using hi2
      · have : (db.mem_tasks.map MemTask.id ++
            (db.mem_chat.map MemChat.id ++ (db.mem_users.map MemUser.id ++ db.mem_files.map MemFile.id))) ++
            ([] : List Nat) = allIds db := by
          simpa [List.append_assoc] using e2
        exact this.symm ▸ hnd
    · simp [stepCreate, save_uploaded_file, hi, hc]
    · simp [stepCreate, save_uploaded_file, hi]
    · simp [stepCreate, save_uploaded_file, hi]
    · intro i h
      simp [stepCreate, save_uploaded_file, hi] at h
      simp [stepCreate, save_uploaded_file, hi, h]

theorem runCreates_inv (ops : List CreateOp) (db : DBService)
    (hc : db.connection_type = ConnType.memory) (hi : db.initialized = false)
    (hinv : IdInv db) :
    IdInv (runCreates db ops).1 ∧
    (runCreates db ops).1.connection_type = ConnType.memory ∧
    (runCreates db ops).1.initialized = false ∧
    db.next_id ≤ (runCreates db ops).1.next_id ∧
    (∀ i ∈ (runCreates db ops).2, db.next_id ≤ i ∧ i < (runCreates db ops).1.next_id) ∧
    List.Pairwise (· < ·) (runCreates db ops).2 := by
  induction ops generalizing db with
  | nil =>
    exact ⟨hinv, hc, hi, le_refl _, by simp [runCreates], by simp [runCreates]⟩
  | cons op ops ih =>
    obtain ⟨h1, h2, h3, h4, h5⟩ := stepCreate_inv db op hc hi hinv
    obtain ⟨g1, g2, g3, g4, g5, g6⟩ := ih (stepCreate db op).1 h2 h3 h1
    refine ⟨g1, g2, g3, le_trans h4 g4, ?_, ?_⟩
    · intro i hi2
      simp only [runCreates] at hi2 ⊢
      rcases List.mem_append.mp hi2 with h | h
      · cases hr : (stepCreate db op).2 with
        | none =>
          rw [hr] at h
          simp at h
        | some j =>
          rw [hr] at h
          simp at h
          obtain ⟨hj, hnext⟩ := h5 j hr
          constructor <;> omega
      · obtain ⟨ha, hb2⟩ := g5 i h
        exact ⟨le_trans h4 ha, hb2⟩
    · simp only [runCreates]
      cases hr : (stepCreate db op).2 with
      | none => simpa using g6
      | some j =>
        have hcons : (some j).toList ++ (runCreates (stepCreate db op).1 ops).2 =
            j :: (runCreates (stepCreate db op).1 ops).2 := rfl
        rw [hcons, List.pairwise_cons]
        refine ⟨?_, g6⟩
        intro b hb2
        obtain ⟨hj, hnext⟩ := h5 j hr
        obtain ⟨hge, _⟩ := g5 b hb2
        omega

/-- The reachable state in which the memory backend is the active one: both
probes fail, so `initialize_connections` selects memory (and `initialized`
stays false — it is never assigned in database.py). -/
def memoryModeDB : DBService :=
  init_connections dbInit { postgres_ok := false, supabase_ok := false }

/-- C10: starting from the memory-backend state, any sequence of record-creating
calls (create_task, save_chat_message, create_or_get_user, save_uploaded_file)
draws every new id from the single shared `next_id` counter, which is
incremented after each creation; consequently the assigned ids are strictly
increasing in creation order, they stay below the final counter value, and the
ids are pairwise distinct across all four in-memory collections. -/
theorem shared_counter_unique_ids (ops : List CreateOp) :
    (allIds (runCreates memoryModeDB ops).1).Nodup ∧
    List.Pairwise (· < ·) (runCreates memoryModeDB ops).2 ∧
    (∀ i ∈ (runCreates memoryModeDB ops).2, i < (runCreates memoryModeDB ops).1.next_id) := by
  have hinv : IdInv memoryModeDB := by
    constructor
    · intro i hi
      simp [memoryModeDB, init_connections, dbInit, allIds] at hi
    · simp [memoryModeDB, init_connections, dbInit, allIds]
  have h := runCreates_inv ops memoryModeDB rfl rfl hinv
  exact ⟨h.1.2, h.2.2.2.2.2, fun i hi => (h.2.2.2.2.1 i hi).2⟩

end IntelliAssist
